import Mathlib

/-!
Shallow embedding of the shared CLI skeleton and of selected solvers of the
2021 Advent of Code repository (src/day_01, src/day_2, src/day_09, src/day_23),
together with proofs about the specified behaviour.

Modelling conventions:
* Machine integers are modelled as Nat or Int; u32 arithmetic that can wrap
  (the width-3 window sums of day 1) is reduced modulo 2 ^ 32, matching the
  wrapping overflow semantics of a release build.
* The process argument vector is a list of strings whose head is the program
  name, matching std::env::args.
* Reading standard input to completion (std::io::Read::read_to_string) is
  modelled as a value of type Except String String: ok with the full text, or
  error with the message of the io::Error.  Line-by-line reading
  (std::io::BufRead::lines, used by day 2) is modelled as a list of
  Except String String values, one per line read attempt.
* A finished process is a ProcResult: an exit code together with everything
  written to standard output and standard error, or a panic (an aborted
  process, which on the Rust runtime terminates with status 101, not 1).
  Each println! call contributes one entry to the stdout list.
-/

/-- The question part selector, identical in every day of the repository. -/
inductive QuestionPart
  | one
  | two
deriving DecidableEq

/-- Error kinds of std::num::ParseIntError. -/
inductive ParseIntErrKind
  | empty
  | invalidDigit
  | posOverflow
  | negOverflow
deriving DecidableEq

/-- Display text of std::num::ParseIntError for each kind. -/
def parseIntErrorMessage : ParseIntErrKind → String
  | .empty => "cannot parse integer from empty string"
  | .invalidDigit => "invalid digit found in string"
  | .posOverflow => "number too large to fit in target type"
  | .negOverflow => "number too small to fit in target type"

/-- Value of an ASCII decimal digit, as char::to_digit with radix 10. -/
def digitVal? (c : Char) : Option Nat :=
  if '0' ≤ c ∧ c ≤ '9' then some (c.toNat - '0'.toNat) else none

/-- Digit-accumulation loop of core::num::from_str_radix: each step multiplies
by ten and adds the next digit with a checked bound, reporting the given
overflow kind as soon as the bound is exceeded. -/
def parseDigits (bound : Nat) (ovf : ParseIntErrKind) : List Char → Nat → Except ParseIntErrKind Nat
  | [], acc => .ok acc
  | c :: cs, acc =>
    match digitVal? c with
    | none => .error .invalidDigit
    | some d =>
      if bound < acc * 10 + d then .error ovf else parseDigits bound ovf cs (acc * 10 + d)

/-- Rust str::parse for u32: empty input is an Empty error, a single leading
plus sign is allowed (alone it is InvalidDigit), a minus sign falls through to
the digit loop and is InvalidDigit for an unsigned target, and the value is
bounded by u32::MAX. -/
def parseU32 (s : String) : Except ParseIntErrKind Nat :=
  match s.data with
  | [] => .error .empty
  | c :: cs =>
    if c = '+' then
      match cs with
      | [] => .error .invalidDigit
      | _ => parseDigits 4294967295 .posOverflow cs 0
    else parseDigits 4294967295 .posOverflow (c :: cs) 0

/-- Rust str::parse for i32: as parseU32 but a leading minus sign is accepted,
with magnitude bounded by 2 ^ 31 and overflow kind NegOverflow. -/
def parseI32 (s : String) : Except ParseIntErrKind Int :=
  match s.data with
  | [] => .error .empty
  | c :: cs =>
    if c = '+' then
      match cs with
      | [] => .error .invalidDigit
      | _ => (parseDigits 2147483647 .posOverflow cs 0).map Int.ofNat
    else if c = '-' then
      match cs with
      | [] => .error .invalidDigit
      | _ => (parseDigits 2147483648 .negOverflow cs 0).map (fun n => -(Int.ofNat n))
    else (parseDigits 2147483647 .posOverflow (c :: cs) 0).map Int.ofNat

/-- Both-ends whitespace trim on the character list. -/
def trimChars (cs : List Char) : List Char :=
  ((cs.dropWhile Char.isWhitespace).reverse.dropWhile Char.isWhitespace).reverse

/-- Models Rust str::trim.  Rust trims the full Unicode White_Space set;
Char.isWhitespace covers space, tab, carriage return and line feed, which
coincides with it on ASCII text. -/
def rustTrim (s : String) : String := String.mk (trimChars s.data)

/-- Models str::split with separator given a newline: the list of segments
between newline characters; the empty string yields one empty segment. -/
def splitLines (s : String) : List String := (s.data.splitOn '\n').map String.mk

/-- Lowercase hexadecimal rendering of a natural number without leading
zeroes, as in char::escape_unicode. -/
def lowerHex (n : Nat) : String := String.mk (Nat.toDigits 16 n)

/-- Escape of one character in the Debug formatting of a Rust string, as
char::escape_debug with the double quote escaped: NUL, tab, carriage return,
line feed, backslash and quote become two-character escapes, printable ASCII
passes through, every other ASCII character becomes a braced unicode escape.
Non-ASCII characters pass through raw, as Rust prints printable
non-grapheme-extended characters; the Unicode printability and
grapheme-extension tables deciding the remaining non-ASCII escapes are not
modelled, so the containment statements below are restricted to ASCII
tokens. -/
def escapeDebugChar (c : Char) : String :=
  if c = '\x00' then "\\0"
  else if c = '\t' then "\\t"
  else if c = '\r' then "\\r"
  else if c = '\n' then "\\n"
  else if c = '\\' then "\\\\"
  else if c = '"' then "\\\""
  else if 32 ≤ c.toNat ∧ c.toNat ≤ 126 then String.singleton c
  else if c.toNat < 128 then "\\u\x7b" ++ lowerHex c.toNat ++ "\x7d"
  else String.singleton c

/-- Concatenation of the escapes of a character list. -/
def escapeDebugChars : List Char → String
  | [] => ""
  | c :: cs => escapeDebugChar c ++ escapeDebugChars cs

/-- Debug formatting of a Rust string: the escaped text between double
quotes.  Faithful to the source formatting on ASCII strings; see
escapeDebugChar for the non-ASCII scope. -/
def rustDebugStr (s : String) : String := "\"" ++ escapeDebugChars s.data ++ "\""

/-- One line written to standard output.  A println! of a Display value is
recorded with its exact text; a println! of a Debug-formatted ndarray or enum
is recorded as the printed value itself, since its rendering never matters to
the claims, only that the write happens. -/
inductive OutLine
  | text (s : String)
  | debugArray (rows : List (List Nat))
  | debugPart (p : QuestionPart)
deriving DecidableEq

/-- Observable result of one process run: exit code with the stdout and stderr
writes, or an aborted (panicked) process. -/
inductive ProcResult
  | exited (code : Nat) (stdout : List OutLine) (stderr : List String)
  | panicked
deriving DecidableEq

/-- The stdout writes of a process run (none for an aborted run). -/
def stdoutOf : ProcResult → List OutLine
  | .exited _ out _ => out
  | .panicked => []

namespace Day01

/-- AdventError of src/day_01/src/main.rs.  The payload of the Io variant is
the message of the wrapped io::Error. -/
inductive Error
  | invalidCommand (command : String)
  | ioError (e : String)
  | parseInt (k : ParseIntErrKind)
  | noPartArgument
deriving DecidableEq

/-- Display text of each error, from the thiserror attributes: the
InvalidCommand message embeds the Debug rendering of the offending command,
and the transparent variants forward the wrapped message. -/
def message : Error → String
  | .invalidCommand command =>
      "Invalid command `" ++ rustDebugStr command ++ "'. Expected `part-one' or `part-two'."
  | .ioError e => e
  | .parseInt k => parseIntErrorMessage k
  | .noPartArgument => "Please specify `part-one' or `part-two' as the first argument."

/-- Rolling sums of width 3 (windows(3) mapped through sum), with the u32
wrapping of a release build. -/
def windowSums3 : List Nat → List Nat
  | a :: b :: c :: rest => (a + b + c) % 4294967296 :: windowSums3 (b :: c :: rest)
  | _ => []

/-- Number of strict increases between consecutive elements (tuple_windows
filtered on the first being less than the second). -/
def countIncreases : List Nat → Nat
  | a :: b :: rest => (if a < b then 1 else 0) + countIncreases (b :: rest)
  | _ => 0

/-- solve of day 1: trim, split on newlines, parse every line as u32 (first
failure wins), optionally take width-3 rolling sums, then count increases. -/
def solve (input : String) (questionPart : QuestionPart) : Except Error Nat :=
  match (splitLines (rustTrim input)).mapM parseU32 with
  | .error k => .error (.parseInt k)
  | .ok l =>
    let l' := match questionPart with
      | .one => l
      | .two => windowSums3 l
    .ok (countIncreases l')

/-- Argument dispatch of day_01: the element at index 1 of the argument vector
is required and must be one of the two selector tokens. -/
def dispatch (args : List String) : Except Error QuestionPart :=
  match args[1]? with
  | none => .error .noPartArgument
  | some command =>
    if command = "part-one" then .ok .one
    else if command = "part-two" then .ok .two
    else .error (.invalidCommand command)

/-- day_01: dispatch on the arguments, read standard input to completion, then
solve. -/
def day_01 (args : List String) (stdinRead : Except String String) : Except Error Nat :=
  match dispatch args with
  | .error e => .error e
  | .ok questionPart =>
    match stdinRead with
    | .error e => .error (.ioError e)
    | .ok input => solve input questionPart

/-- main of day 1: print the answer and exit 0, or print the error message to
standard error and exit 1. -/
def main (args : List String) (stdinRead : Except String String) : ProcResult :=
  match day_01 args stdinRead with
  | .ok answer => .exited 0 [.text (toString answer)] []
  | .error err => .exited 1 [] [message err]

/-- Example input embedded in the test module of day 1. -/
def fixtureInput : String := "199\n200\n208\n210\n200\n207\n240\n269\n260\n263"

end Day01

namespace Day2

/-- AdventError of src/day_2/src/main.rs; it has no Io variant. -/
inductive Error
  | invalidInput
  | parseInt (k : ParseIntErrKind)
  | invalidCommand (command : String)
  | noCommand
deriving DecidableEq

/-- Display text of each error, from the thiserror attributes. -/
def message : Error → String
  | .invalidInput => "Invalid input"
  | .parseInt k => parseIntErrorMessage k
  | .invalidCommand command =>
      "Invalid command `" ++ rustDebugStr command ++ "'. Expected `part-one' or `part-two'."
  | .noCommand => ""

/-- One try_fold step of part_one: find the first space (an InvalidInput error
when there is none), split the line there, trim and parse the distance as i32,
and move according to the direction word.  The source splits at a byte index;
it is modelled as a character index, which coincides on ASCII lines. -/
def stepOne (acc : Int × Int) (line : String) : Except Error (Int × Int) :=
  match line.data.findIdx? (· = ' ') with
  | none => .error .invalidInput
  | some i =>
    let direction := String.mk (line.data.take i)
    let rest := String.mk (line.data.drop i)
    match parseI32 (rustTrim rest) with
    | .error k => .error (.parseInt k)
    | .ok distance =>
      if direction = "forward" then .ok (acc.1 + distance, acc.2)
      else if direction = "up" then .ok (acc.1, acc.2 - distance)
      else if direction = "down" then .ok (acc.1, acc.2 + distance)
      else .error .invalidInput

/-- One try_fold step of part_two, over position and aim. -/
def stepTwo (acc : Int × Int × Int) (line : String) : Except Error (Int × Int × Int) :=
  match line.data.findIdx? (· = ' ') with
  | none => .error .invalidInput
  | some i =>
    let direction := String.mk (line.data.take i)
    let rest := String.mk (line.data.drop i)
    match parseI32 (rustTrim rest) with
    | .error k => .error (.parseInt k)
    | .ok distance =>
      if direction = "forward" then
        .ok (acc.1 + distance, acc.2.1 + acc.2.2 * distance, acc.2.2)
      else if direction = "up" then .ok (acc.1, acc.2.1, acc.2.2 - distance)
      else if direction = "down" then .ok (acc.1, acc.2.1, acc.2.2 + distance)
      else .error .invalidInput

/-- The part-one fold applied to a list of already-read lines, returning the
product of the final coordinates. -/
def partOneLines (lines : List String) : Except Error Int :=
  (lines.foldlM stepOne (0, 0)).map (fun p => p.1 * p.2)

/-- The part-two fold applied to a list of already-read lines. -/
def partTwoLines (lines : List String) : Except Error Int :=
  (lines.foldlM stepTwo (0, 0, 0)).map (fun p => p.1 * p.2.1)

/-- part_one of day 2: iterate over the line read results, silently dropping
every failed read (filter_map over Result::ok), and try_fold the rest. -/
def part_one (stdinLines : List (Except String String)) : Except Error Int :=
  partOneLines (stdinLines.filterMap Except.toOption)

/-- part_two of day 2, with the same silent dropping of failed reads. -/
def part_two (stdinLines : List (Except String String)) : Except Error Int :=
  partTwoLines (stdinLines.filterMap Except.toOption)

/-- main of day 2: a missing selector prints the usage message and exits 1; a
recognized selector runs the corresponding part; an unrecognized one is an
InvalidCommand error; errors are printed with an Error prefix and exit 1. -/
def main (args : List String) (stdinLines : List (Except String String)) : ProcResult :=
  match args[1]? with
  | some command =>
    let result :=
      if command = "part-one" then part_one stdinLines
      else if command = "part-two" then part_two stdinLines
      else .error (.invalidCommand command)
    match result with
    | .ok r => .exited 0 [.text (toString r)] []
    | .error err => .exited 1 [] ["Error: " ++ message err]
  | none => .exited 1 [] ["Please specify `part-one' or `part-two' as the first argument."]

/-- Modelled from the spec: the Input Reader contract of section 4.2, which is
absent from day 2 itself — read standard input to completion, failing with an
I/O error kind if any underlying read fails.  The value is the full list of
lines, available only when every line read succeeded. -/
def specReadToCompletion (stdinLines : List (Except String String)) : Except String (List String) :=
  stdinLines.mapM id

/-- Modelled from the spec: first read all of standard input, then parse and
fold the lines exactly as part_one does.  The outer Except is the I/O outcome
of the read, the inner one the outcome of the solver. -/
def specPartOneReadAll (stdinLines : List (Except String String)) :
    Except String (Except Error Int) :=
  match specReadToCompletion stdinLines with
  | .error e => .error e
  | .ok lines => .ok (partOneLines lines)

/-- Modelled from the spec: the read-to-completion-then-parse behaviour for
part two. -/
def specPartTwoReadAll (stdinLines : List (Except String String)) :
    Except String (Except Error Int) :=
  match specReadToCompletion stdinLines with
  | .error e => .error e
  | .ok lines => .ok (partTwoLines lines)

end Day2

/-- usize::MAX on a 64-bit target, the sentinel used for missing neighbours in
day 9. -/
def usizeMax : Nat := 18446744073709551615

namespace Day09

/-- AdventError of src/day_09/src/main.rs.  The ShapeError payload of ndarray
is dropped: no claim depends on it. -/
inductive Error
  | invalidCommand (command : String)
  | invalidInput
  | ioError (e : String)
  | noPartArgument
  | shape
  | parse (c : Char)
deriving DecidableEq

/-- Display text of each error.  The Shape variant is transparent to ndarray's
ShapeError Display, whose text is not modelled; no claim depends on it. -/
def message : Error → String
  | .invalidCommand command =>
      "Invalid command `" ++ rustDebugStr command ++ "'. Expected `part-one' or `part-two'."
  | .invalidInput => "Invalid input"
  | .ioError e => e
  | .noPartArgument => "Please specify `part-one' or `part-two' as the first argument."
  | .shape => "ShapeError"
  | .parse c => "Could not parse char `" ++ String.singleton c ++ "' to numeric digit."

/-- The height-map after into_shape((height, width)) and reversed_axes: a
width-by-height array stored flat, the element at (x, y) sitting at index
y * width + x. -/
structure Grid where
  width : Nat
  height : Nat
  data : List Nat

/-- Element at (x, y); call sites only use it at in-bounds points, where the
source unwraps the ndarray get. -/
def Grid.cell (g : Grid) (x y : Nat) : Nat := g.data.getD (y * g.width + x) 0

/-- Element at (x, y) as an Option, as ndarray get: none out of bounds. -/
def Grid.cellOpt (g : Grid) (x y : Nat) : Option Nat :=
  if x < g.width ∧ y < g.height then some (g.cell x y) else none

/-- Low points of the grid: iproduct over 0..width (outer) and 0..height
(inner), keeping the points strictly below the minimum of their four
neighbours, a missing neighbour counting as usize::MAX. -/
def lowPoints (g : Grid) : List (Nat × Nat) :=
  (List.range g.width).flatMap fun x =>
    (List.range g.height).filterMap fun y =>
      let target := g.cell x y
      let left := if 0 < x then (g.cellOpt (x - 1) y).getD usizeMax else usizeMax
      let right := (g.cellOpt (x + 1) y).getD usizeMax
      let up := (g.cellOpt x (y + 1)).getD usizeMax
      let down := if 0 < y then (g.cellOpt x (y - 1)).getD usizeMax else usizeMax
      if target < min left (min right (min up down)) then some (x, y) else none

/-- Neighbour points pushed onto the queue for a visited cell, in source
order: left, right, below, above, each guarded by the bounds. -/
def neighborPushes (g : Grid) (x y : Nat) : List (Nat × Nat) :=
  (if 0 < x then [(x - 1, y)] else []) ++
  (if x + 1 < g.width then [(x + 1, y)] else []) ++
  (if 0 < y then [(x, y - 1)] else []) ++
  (if y + 1 < g.height then [(x, y + 1)] else [])

/-- The while-let loop of discover_basin: pop the queue front; skip cells of
height 9 and cells already visited; otherwise count the cell, record it in the
visited set and in the visualisation array, and push its neighbours.  The
source loop always terminates — every iteration pops one entry, at most
width * height iterations insert a new cell into the visited set, and each
insertion pushes at most four entries, so it runs at most
1 + 5 * width * height iterations — and the fuel passed by discover_basin
dominates this bound, making the none branch unreachable. -/
def bfsAux (g : Grid) :
    Nat → List (Nat × Nat) → List (Nat × Nat) → Nat → List Nat → Option (Nat × List Nat)
  | _, [], _, size, vis => some (size, vis)
  | 0, _ :: _, _, _, _ => none
  | fuel + 1, (x, y) :: q, visited, size, vis =>
    if g.cell x y = 9 ∨ (x, y) ∈ visited then
      bfsAux g fuel q visited size vis
    else
      bfsAux g fuel (q ++ neighborPushes g x y) ((x, y) :: visited) (size + 1)
        (vis.set (y * g.width + x) (g.cell x y))

/-- Pretty printing of a grid as in the print function: one line per row, a
dot for zero cells and the digit otherwise. -/
def printGridLines (g : Grid) : List String :=
  (List.range g.height).map fun y =>
    String.join ((List.range g.width).map fun x =>
      let v := g.cell x y
      if v = 0 then "." else toString v)

/-- discover_basin: breadth-first search from a low point, returning the basin
size and the lines printed for the visualisation array. -/
def discover_basin (lowPoint : Nat × Nat) (g : Grid) : Nat × List String :=
  match bfsAux g (5 * (g.width * g.height) + 1) [lowPoint] [] 0
      (List.replicate (g.width * g.height) 0) with
  | some (size, vis) => (size, printGridLines ⟨g.width, g.height, vis⟩)
  | none => (0, [])

/-- Rows of the transposed debug print of the parsed array (the height-by-
width orientation of the input). -/
def gridRows (g : Grid) : List (List Nat) :=
  (List.range g.height).map fun y => (List.range g.width).map fun x => g.cell x y

/-- Per-character digit parse of all lines flattened in order, stopping at the
first non-digit, as the collect over the flattened char iterators. -/
def charDigits (lines : List String) : Except Error (List Nat) :=
  (lines.flatMap String.data).mapM fun c =>
    match digitVal? c with
    | some d => .ok d
    | none => .error (Error.parse c)

/-- Ascending insertion sort, modelling sort_unstable on the basin sizes;
on natural numbers every sort produces this output. -/
def insertAsc (x : Nat) : List Nat → List Nat
  | [] => [x]
  | y :: ys => if x ≤ y then x :: y :: ys else y :: insertAsc x ys

/-- Ascending sort of a list of natural numbers. -/
def sortAsc : List Nat → List Nat
  | [] => []
  | x :: xs => insertAsc x (sortAsc xs)

/-- solve of day 9, returning the result together with the lines written to
standard output along the way: the debug print of the parsed array (before the
low point search), then, in part two, the visualisation printed by each
discover_basin call. -/
def solve (input : String) (questionPart : QuestionPart) :
    Except Error Nat × List OutLine :=
  let lines := splitLines (rustTrim input)
  match lines[0]? with
  | none => (.error .invalidInput, [])
  | some first =>
    let width := first.utf8ByteSize
    let height := lines.length
    match charDigits lines with
    | .error e => (.error e, [])
    | .ok digits =>
      if digits.length = height * width then
        let g : Grid := ⟨width, height, digits⟩
        let ev := [OutLine.debugArray (gridRows g)]
        match questionPart with
        | .one => (.ok ((lowPoints g).map fun p => g.cell p.1 p.2 + 1).sum, ev)
        | .two =>
          let results := (lowPoints g).map fun lp => discover_basin lp g
          let basinSizes := sortAsc (results.map Prod.fst)
          (.ok (basinSizes.reverse.take 3).prod,
            ev ++ results.flatMap fun r => r.2.map OutLine.text)
      else (.error .shape, [])

/-- Argument dispatch of day_9, identical in shape to that of day 1. -/
def dispatch (args : List String) : Except Error QuestionPart :=
  match args[1]? with
  | none => .error .noPartArgument
  | some command =>
    if command = "part-one" then .ok .one
    else if command = "part-two" then .ok .two
    else .error (.invalidCommand command)

/-- day_9: dispatch, read standard input to completion, then solve. -/
def day_9 (args : List String) (stdinRead : Except String String) :
    Except Error Nat × List OutLine :=
  match dispatch args with
  | .error e => (.error e, [])
  | .ok questionPart =>
    match stdinRead with
    | .error e => (.error (.ioError e), [])
    | .ok input => solve input questionPart

/-- main of day 9: append the answer line to the lines solve printed on
success; print the error message to standard error and exit 1 on failure. -/
def main (args : List String) (stdinRead : Except String String) : ProcResult :=
  match day_9 args stdinRead with
  | (.ok answer, ev) => .exited 0 (ev ++ [.text (toString answer)]) []
  | (.error err, ev) => .exited 1 ev [message err]

/-- Example input embedded in the test module of day 9 (with its trailing
newline). -/
def fixtureInput : String := "2199943210\n3987894921\n9856789892\n8767896789\n9899965678\n"

end Day09

namespace Day23

/-- AdventError of src/day_23/src/main.rs.  It carries an Io variant wired to
io::Error, but the read in day_23 unwraps instead of using it. -/
inductive Error
  | invalidCommand (command : String)
  | ioError (e : String)
  | noPartArgument
deriving DecidableEq

/-- Control flow of the entry function day_23 up to and including the read of
standard input (src/day_23/src/main.rs lines 661 to 676): a returned error
(printed by main, which then exits 1), a panic from the unwrap on
read_to_string when the read fails, or control proceeding into parse and
search with the full input.  The success path beyond the read is not modelled;
no claim depends on it. -/
inductive Step
  | errorExit (e : Error)
  | panicked
  | proceeds (p : QuestionPart) (input : String)
deriving DecidableEq

/-- Arguments and read handling of day_23: the dispatch is identical to day 1;
the question part is then printed with Debug formatting; the read result is
unwrapped, so a failed read panics instead of producing the Io error. -/
def entry (args : List String) (stdinRead : Except String String) : Step :=
  match args[1]? with
  | none => .errorExit .noPartArgument
  | some command =>
    let part :=
      if command = "part-one" then Except.ok QuestionPart.one
      else if command = "part-two" then Except.ok QuestionPart.two
      else Except.error (Error.invalidCommand command)
    match part with
    | .error e => .errorExit e
    | .ok questionPart =>
      match stdinRead with
      | .error _ => .panicked
      | .ok input => .proceeds questionPart input

end Day23

/-- Number of indices i at which the element is strictly less than the element
three positions later. -/
def skip3Count : List Nat → Nat
  | a :: b :: c :: d :: t => (if a < d then 1 else 0) + skip3Count (b :: c :: d :: t)
  | _ => 0

/-- The width-3 window sums without the u32 reduction, used to state
no-overflow hypotheses. -/
def windowsRaw3 : List Nat → List Nat
  | a :: b :: c :: rest => (a + b + c) :: windowsRaw3 (b :: c :: rest)
  | _ => []

/-- When no character of a list needs a Debug escape, the escaped rendering is
the list itself. -/
theorem escapeDebugChars_plain (cs : List Char)
    (h : ∀ c ∈ cs, escapeDebugChar c = String.singleton c) :
    (escapeDebugChars cs).data = cs := by
  induction cs with
  | nil => rfl
  | cons c cs ih =>
    have hc : escapeDebugChar c = String.singleton c := h c (by simp)
    have ih' := ih fun x hx => h x (by simp [hx])
    simp [escapeDebugChars, String.data_append, hc, ih', String.singleton]

/-- Collecting a list of line read results all of which succeeded gives
exactly the successfully read lines. -/
theorem mapM_id_of_isOk (stream : List (Except String String))
    (h : ∀ r ∈ stream, r.isOk = true) :
    stream.mapM id = Except.ok (stream.filterMap Except.toOption) := by
  induction stream with
  | nil => rfl
  | cons r rest ih =>
    match r with
    | .error e => exact Bool.noConfusion (h (Except.error e) (by simp))
    | .ok a =>
      have ih' := ih fun x hx => h x (by simp [hx])
      rw [List.mapM_cons, ih']
      simp [List.filterMap_cons, Except.toOption]
      rfl

/-- With no window sum overflowing u32, the count of increases between
consecutive wrapped window sums is the count of indices whose element is less
than the element three later. -/
theorem countIncreases_windowSums3 (l : List Nat)
    (h : ∀ w ∈ windowsRaw3 l, w < 4294967296) :
    Day01.countIncreases (Day01.windowSums3 l) = skip3Count l := by
  induction l with
  | nil => rfl
  | cons a l ih =>
    rcases l with _ | ⟨b, l⟩
    · rfl
    rcases l with _ | ⟨c, l⟩
    · rfl
    rcases l with _ | ⟨d, l⟩
    · rfl
    have hw1 : a + b + c < 4294967296 := h _ (List.mem_cons_self _ _)
    have hw2 : b + c + d < 4294967296 :=
      h _ (List.mem_cons_of_mem _ (List.mem_cons_self _ _))
    have ih' := ih fun w hw => h w (List.mem_cons_of_mem _ hw)
    show (if (a + b + c) % 4294967296 < (b + c + d) % 4294967296 then 1 else 0)
        + Day01.countIncreases (Day01.windowSums3 (b :: c :: d :: l))
      = (if a < d then 1 else 0) + skip3Count (b :: c :: d :: l)
    rw [Nat.mod_eq_of_lt hw1, Nat.mod_eq_of_lt hw2, ih']
    have hiff : (a + b + c < b + c + d) ↔ (a < d) := by omega
    simp only [hiff]

/-- C1 (amended): the day 1 dispatcher fails with the missing-selector error
when no argument is present at index 1; on any other token than the two
recognized ones it fails with the invalid-selector error carrying that token,
and for an ASCII token — the scope on which the Debug formatting model is
faithful — the message contains the Debug-escaped rendering of the token, and
hence the raw token itself whenever every character of the token renders
unescaped; on exactly part-one or part-two it returns the corresponding
variant. -/
theorem claim1_result (args : List String) :
    (args[1]? = none → Day01.dispatch args = .error .noPartArgument)
    ∧ (∀ tok, args[1]? = some tok → tok ≠ "part-one" → tok ≠ "part-two" →
        Day01.dispatch args = .error (.invalidCommand tok)
        ∧ ((∀ c ∈ tok.data, c.toNat < 128) →
            (rustDebugStr tok).data <:+: (Day01.message (.invalidCommand tok)).data
            ∧ ((∀ c ∈ tok.data, escapeDebugChar c = String.singleton c) →
                tok.data <:+: (Day01.message (.invalidCommand tok)).data)))
    ∧ (args[1]? = some "part-one" → Day01.dispatch args = .ok .one)
    ∧ (args[1]? = some "part-two" → Day01.dispatch args = .ok .two) := by
  refine ⟨fun h => by simp [Day01.dispatch, h], fun tok h h1 h2 => ?_,
    fun h => by simp [Day01.dispatch, h], fun h => by simp [Day01.dispatch, h]⟩
  have hmsg : (rustDebugStr tok).data <:+: (Day01.message (.invalidCommand tok)).data := by
    refine ⟨"Invalid command `".data, "'. Expected `part-one' or `part-two'.".data, ?_⟩
    simp [Day01.message, String.data_append]
  refine ⟨by simp [Day01.dispatch, h, h1, h2], fun _ => ⟨hmsg, fun hplain => ?_⟩⟩
  have hbody : (escapeDebugChars tok.data).data = tok.data := escapeDebugChars_plain _ hplain
  have hin : tok.data <:+: (rustDebugStr tok).data := by
    refine ⟨['"'], ['"'], ?_⟩
    simp [rustDebugStr, String.data_append, hbody]
  exact hin.trans hmsg

/-- C1 counterexample: a selector token consisting of one line feed character
is echoed in its escaped Debug form, so the raw token does not occur in the
invalid-selector message. -/
theorem claim1_counterexample :
    Day01.dispatch ["day_01", "\n"] = .error (.invalidCommand "\n")
    ∧ ¬ ("\n".data <:+: (Day01.message (.invalidCommand "\n")).data) :=
  ⟨rfl, by decide⟩

/-- C1 witness: the dispatcher contract at concrete argument vectors. -/
theorem claim1_witness :
    Day01.dispatch ["day_01"] = .error .noPartArgument
    ∧ Day01.dispatch ["day_01", "foo"] = .error (.invalidCommand "foo")
    ∧ "foo".data <:+: (Day01.message (.invalidCommand "foo")).data
    ∧ Day01.dispatch ["day_01", "part-one"] = .ok .one
    ∧ Day01.dispatch ["day_01", "part-two"] = .ok .two := by
  refine ⟨(claim1_result ["day_01"]).1 rfl, ?_, ?_,
    (claim1_result ["day_01", "part-one"]).2.2.1 rfl,
    (claim1_result ["day_01", "part-two"]).2.2.2 rfl⟩
  · exact ((claim1_result ["day_01", "foo"]).2.1 "foo" rfl (by decide) (by decide)).1
  · exact (((claim1_result ["day_01", "foo"]).2.1 "foo" rfl (by decide) (by decide)).2
      (by decide)).2 (by decide)

/-- C2: when the read of standard input fails, day 23 panics at the unwrap —
an aborted process, not an exit with status 1 — while day 1 under identical
conditions exits 1 with the diagnostic on standard error. -/
theorem claim2_result :
    Day23.entry ["day_23", "part-one"] (.error "stdin read failed") = .panicked
    ∧ Day01.main ["day_01", "part-one"] (.error "stdin read failed")
      = .exited 1 [] ["stdin read failed"] :=
  ⟨rfl, rfl⟩

/-- C3 counterexample: a successful part-one run of day 9 on its fixture
input writes two lines to standard output — the debug print of the parsed
array, then the answer — not exactly one. -/
theorem claim3_counterexample :
    Day09.main ["day_9", "part-one"] (.ok Day09.fixtureInput)
      = .exited 0
        [.debugArray [[2, 1, 9, 9, 9, 4, 3, 2, 1, 0], [3, 9, 8, 7, 8, 9, 4, 9, 2, 1],
          [9, 8, 5, 6, 7, 8, 9, 8, 9, 2], [8, 7, 6, 7, 8, 9, 6, 7, 8, 9],
          [9, 8, 9, 9, 9, 6, 5, 6, 7, 8]], .text "15"] []
    ∧ (stdoutOf (Day09.main ["day_9", "part-one"] (.ok Day09.fixtureInput))).length ≠ 1 :=
  ⟨by decide, by decide⟩

/-- C3 (amended): days 1 and 2 write exactly the answer line to standard
output on success, and nothing to standard output but one diagnostic line to
standard error on failure; day 9 additionally writes debug lines to standard
output before the answer. -/
theorem claim3_result (args : List String) (sr : Except String String)
    (stream : List (Except String String)) :
    (∀ a, Day01.day_01 args sr = .ok a →
        Day01.main args sr = .exited 0 [.text (toString a)] [])
    ∧ (∀ e, Day01.day_01 args sr = .error e →
        Day01.main args sr = .exited 1 [] [Day01.message e])
    ∧ ((∃ r : Int, Day2.main args stream = .exited 0 [.text (toString r)] [])
        ∨ (∃ d : String, Day2.main args stream = .exited 1 [] [d])) := by
  refine ⟨fun a h => by simp [Day01.main, h], fun e h => by simp [Day01.main, h], ?_⟩
  rcases hA : args[1]? with _ | cmd
  · exact Or.inr ⟨"Please specify `part-one' or `part-two' as the first argument.",
      by simp [Day2.main, hA]⟩
  · rcases hr : (if cmd = "part-one" then Day2.part_one stream
        else if cmd = "part-two" then Day2.part_two stream
        else .error (.invalidCommand cmd)) with e | r
    · exact Or.inr ⟨"Error: " ++ Day2.message e, by simp [Day2.main, hA, hr]⟩
    · exact Or.inl ⟨r, by simp [Day2.main, hA, hr]⟩

/-- C3 witness: the single-line output contract of day 1 at concrete runs. -/
theorem claim3_witness :
    Day01.main ["day_01", "part-one"] (.ok Day01.fixtureInput)
      = .exited 0 [.text (toString 7)] []
    ∧ Day01.main ["day_01"] (.ok "") = .exited 1 [] [Day01.message .noPartArgument] :=
  ⟨(claim3_result ["day_01", "part-one"] (.ok Day01.fixtureInput) []).1 7 rfl,
   (claim3_result ["day_01"] (.ok "") []).2.1 .noPartArgument rfl⟩

/-- C4 counterexample: a day 2 invocation whose only line read fails succeeds
with answer 0 and exit code 0 — the read failure is silently discarded, no
I/O-kind error is produced. -/
theorem claim4_counterexample :
    Day2.part_one [.error "stdin read failed"] = .ok 0
    ∧ Day2.main ["day_2", "part-one"] [.error "stdin read failed"]
      = .exited 0 [.text "0"] [] :=
  ⟨rfl, rfl⟩

/-- C4 (amended): in days whose read propagates with the question-mark
operator, here days 1 and 9, a failing read of standard input yields the
typed Io error immediately after dispatch; day 2 instead silently discards
failed line reads, and day 23 panics. -/
theorem claim4_result (args : List String) (e : String) (p : QuestionPart) :
    (Day01.dispatch args = .ok p → Day01.day_01 args (.error e) = .error (.ioError e))
    ∧ (Day09.dispatch args = .ok p → Day09.day_9 args (.error e) = (.error (.ioError e), [])) :=
  ⟨fun h => by simp [Day01.day_01, h], fun h => by simp [Day09.day_9, h]⟩

/-- C4 witness: the typed Io error at concrete runs of days 1 and 9. -/
theorem claim4_witness :
    Day01.day_01 ["day_01", "part-one"] (.error "broken pipe") = .error (.ioError "broken pipe")
    ∧ Day09.day_9 ["day_9", "part-two"] (.error "broken pipe")
      = (.error (.ioError "broken pipe"), []) :=
  ⟨(claim4_result ["day_01", "part-one"] "broken pipe" .one).1 rfl,
   (claim4_result ["day_9", "part-two"] "broken pipe" .two).2 rfl⟩

/-- C5: the embedded solvers reproduce the published example answers on the
fixture inputs of the test modules: day 1 part one gives 7, day 9 gives 15 for
part one and 1134 for part two. -/
theorem claim5_result :
    Day01.solve Day01.fixtureInput .one = .ok 7
    ∧ (Day09.solve Day09.fixtureInput .one).1 = .ok 15
    ∧ (Day09.solve Day09.fixtureInput .two).1 = .ok 1134 :=
  ⟨rfl, rfl, rfl⟩

/-- C6: the solve functions of days 1 and 9 are deterministic — two
invocations on the identical input and part pair produce identical results
(including, for day 9, identical printed output). -/
theorem claim6_result (input : String) (p : QuestionPart) :
    (∀ r₁ r₂ : Except Day01.Error Nat,
        r₁ = Day01.solve input p → r₂ = Day01.solve input p → r₁ = r₂)
    ∧ (∀ r₁ r₂ : Except Day09.Error Nat × List OutLine,
        r₁ = Day09.solve input p → r₂ = Day09.solve input p → r₁ = r₂) :=
  ⟨fun _ _ h₁ h₂ => h₁.trans h₂.symm, fun _ _ h₁ h₂ => h₁.trans h₂.symm⟩

/-- C6 witness: determinism instantiated on the fixture inputs. -/
theorem claim6_witness :
    Day01.solve Day01.fixtureInput .one = Day01.solve Day01.fixtureInput .one
    ∧ Day09.solve Day09.fixtureInput .two = Day09.solve Day09.fixtureInput .two :=
  ⟨(claim6_result Day01.fixtureInput .one).1 _ _ rfl rfl,
   (claim6_result Day09.fixtureInput .two).2 _ _ rfl rfl⟩

/-- C7 counterexample: on a stream whose only line read fails, day 2 part one
answers 0 while the read-everything-then-parse model of the spec fails with
the I/O error — the two behaviours differ on mid-stream read errors. -/
theorem claim7_counterexample :
    Day2.specPartOneReadAll [.error "mid-stream read error"]
      = .error "mid-stream read error"
    ∧ Day2.part_one [.error "mid-stream read error"] = .ok 0
    ∧ Except.ok (Day2.part_one [.error "mid-stream read error"])
      ≠ Day2.specPartOneReadAll [.error "mid-stream read error"] :=
  ⟨rfl, rfl, fun h => Except.noConfusion h⟩

/-- C7 (amended): day 2 interleaves reading and parsing, but agrees with the
read-standard-input-to-completion-then-parse model on every stream in which
all line reads succeed; the two differ only under mid-stream read failures
(days that call read_to_string satisfy the model by construction). -/
theorem claim7_result (stream : List (Except String String))
    (h : ∀ r ∈ stream, r.isOk = true) :
    Except.ok (Day2.part_one stream) = Day2.specPartOneReadAll stream
    ∧ Except.ok (Day2.part_two stream) = Day2.specPartTwoReadAll stream := by
  have hread : Day2.specReadToCompletion stream
      = .ok (stream.filterMap Except.toOption) := mapM_id_of_isOk stream h
  constructor
  · simp [Day2.specPartOneReadAll, hread, Day2.part_one]
  · simp [Day2.specPartTwoReadAll, hread, Day2.part_two]

/-- C7 witness: the equivalence at a concrete error-free stream. -/
theorem claim7_witness :
    Except.ok (Day2.part_one [.ok "forward 2", .ok "down 3"])
      = Day2.specPartOneReadAll [.ok "forward 2", .ok "down 3"]
    ∧ Except.ok (Day2.part_two [.ok "forward 2", .ok "down 3"])
      = Day2.specPartTwoReadAll [.ok "forward 2", .ok "down 3"] :=
  claim7_result [.ok "forward 2", .ok "down 3"] (by decide)

/-- C8 counterexample: with u32 wrapping, the list 1, 2147483647, 2147483647,
3 has window sums 4294967295 and 1, so the part-two answer is 0, while exactly
one index has its element less than the element three later. -/
theorem claim8_counterexample :
    Day01.countIncreases (Day01.windowSums3 [1, 2147483647, 2147483647, 3]) = 0
    ∧ skip3Count [1, 2147483647, 2147483647, 3] = 1
    ∧ Day01.solve "1\n2147483647\n2147483647\n3" .two = .ok 0 :=
  ⟨by decide, by decide, rfl⟩

/-- C8 (amended): for every measurement list none of whose width-3 window sums
overflows u32, the day 1 part-two answer equals the number of indices whose
element is strictly less than the element three positions later. -/
theorem claim8_result (l : List Nat) (h : ∀ w ∈ windowsRaw3 l, w < 4294967296) :
    Day01.countIncreases (Day01.windowSums3 l) = skip3Count l
    ∧ ∀ input, (splitLines (rustTrim input)).mapM parseU32 = .ok l →
        Day01.solve input .two = .ok (skip3Count l) := by
  have hmain := countIncreases_windowSums3 l h
  refine ⟨hmain, fun input hp => ?_⟩
  simp only [Day01.solve]
  rw [hp]
  simp [hmain]

/-- C8 witness: the window-sum identity at a concrete measurement list. -/
theorem claim8_witness :
    Day01.countIncreases (Day01.windowSums3 [199, 200, 208, 210])
      = skip3Count [199, 200, 208, 210]
    ∧ Day01.solve "199\n200\n208\n210" .two = .ok (skip3Count [199, 200, 208, 210]) :=
  ⟨(claim8_result [199, 200, 208, 210] (by decide)).1,
   (claim8_result [199, 200, 208, 210] (by decide)).2 "199\n200\n208\n210" rfl⟩

/-- C9: the day 1 entry point inspects only the argument at index 1 — with
the same valid selector there and the same standard input, any further
arguments leave the entire process result unchanged. -/
theorem claim9_result (prog sel : String) (rest rest' : List String)
    (sr : Except String String) (h : sel = "part-one" ∨ sel = "part-two") :
    Day01.main (prog :: sel :: rest) sr = Day01.main (prog :: sel :: rest') sr := by
  rcases h with h | h <;> subst h <;> cases sr <;>
    simp [Day01.main, Day01.day_01, Day01.dispatch]

/-- C9 witness: an extra trailing argument does not change the result. -/
theorem claim9_witness :
    Day01.main ["day_01", "part-one", "extra"] (.ok Day01.fixtureInput)
      = Day01.main ["day_01", "part-one"] (.ok Day01.fixtureInput) :=
  claim9_result "day_01" "part-one" ["extra"] [] (.ok Day01.fixtureInput) (Or.inl rfl)

/-- C10: on empty or all-whitespace standard input, day 1 fails for both parts
with the integer-parse error of kind Empty, coming from parsing the empty
token, and in particular never answers 0. -/
theorem claim10_result (s : String) (p : QuestionPart)
    (h : ∀ c ∈ s.data, c.isWhitespace = true) :
    Day01.solve s p = .error (.parseInt .empty) ∧ Day01.solve s p ≠ .ok 0 := by
  have htrim : rustTrim s = "" := by
    unfold rustTrim trimChars
    have h1 : s.data.dropWhile Char.isWhitespace = [] :=
      List.dropWhile_eq_nil_iff.mpr fun c hc => h c hc
    rw [h1]
    rfl
  have hk : Day01.solve s p = .error (.parseInt .empty) := by
    simp only [Day01.solve]
    rw [htrim]
    rfl
  exact ⟨hk, by rw [hk]; exact fun hc => Except.noConfusion hc⟩

/-- C10 witness: the Empty parse error on a concrete whitespace input. -/
theorem claim10_witness :
    Day01.solve " \n " .one = .error (.parseInt .empty)
    ∧ Day01.solve " \n " .one ≠ .ok 0 :=
  ⟨(claim10_result " \n " .one (by decide)).1, (claim10_result " \n " .one (by decide)).2⟩
